import Mathlib

/-!
Verification development for the NMEA web-serial decoding and derivation engine.

The development shallowly embeds three layers of the program:

* the sentence parser layer: tokenizer, checksum validator, the custom depth
  codecs (DPT, DBS, DBK) and the strict/permissive parse entry points
  (`src/parser/index.ts`, `src/parser/codecs/{DPT,DBS,DBK}.ts`);
* the navigation derivation layer (`computeNavigationData` and its helpers);
* the generic machine layer: the packet cache update (`storePacket`),
  the allow-list check (`isAllowedSentenceId`) and the event handling of the
  connected state (`src/core/index.ts`).

JavaScript IEEE-754 numbers are modelled by rationals extended with a NaN
element (`JSNum`); `Date` values are modelled by their millisecond timestamp.
The tokenizer/checksum layer and the default (built-in) packet factory live in
the external `nmea-simple` dependency whose source is not part of the
repository; those definitions are modelled from the spec and are marked as
such in their doc comments.
-/

/-- JavaScript number: a rational, or the NaN sentinel produced by a failed
numeric field parse ("parse float, fail soft" policy of the spec). -/
inductive JSNum where
  | nan : JSNum
  | num : ℚ → JSNum
deriving DecidableEq, Repr

/-- Addition on JS numbers: NaN propagates. -/
def JSNum.add : JSNum → JSNum → JSNum
  | JSNum.num a, JSNum.num b => JSNum.num (a + b)
  | _, _ => JSNum.nan

/-- Negation on JS numbers: NaN propagates. -/
def JSNum.neg : JSNum → JSNum
  | JSNum.num a => JSNum.num (-a)
  | JSNum.nan => JSNum.nan

/-- Multiplication on JS numbers: NaN propagates. -/
def JSNum.mul : JSNum → JSNum → JSNum
  | JSNum.num a, JSNum.num b => JSNum.num (a * b)
  | _, _ => JSNum.nan

/-- Whether a JS number is a finite value (not the NaN sentinel). -/
def JSNum.isFinite : JSNum → Bool
  | JSNum.num _ => true
  | JSNum.nan => false

/-- Numeric value of a decimal digit character. -/
def digitVal (c : Char) : ℕ := c.toNat - ('0').toNat

/-- Whether a character is a decimal digit. -/
def isDecDigit (c : Char) : Bool := ('0') ≤ c && c ≤ ('9')

/-- Natural number denoted by a list of decimal digit characters. -/
def natOfDigits (l : List Char) : ℕ := l.foldl (fun a c => 10 * a + digitVal c) 0

/-- Modelled from the spec: the "parse float, fail soft" policy of the missing
`src/utils` module parses a field as a decimal number (optional sign, integer
part, optional fractional part); any string that does not denote a number
yields no value, which `parseFloatSafe` turns into NaN. The denoted rational
is assembled with `mkRat` (so `12.5` denotes `mkRat 125 10`, that is 125/10). -/
def parseDecimal (s : String) : Option ℚ :=
  let cs := s.toList
  let signAndRest : Bool × List Char :=
    match cs with
    | ('-') :: r => (true, r)
    | ('+') :: r => (false, r)
    | r => (false, r)
  let isNeg := signAndRest.1
  let rest := signAndRest.2
  let intPart := rest.takeWhile isDecDigit
  let afterInt := rest.dropWhile isDecDigit
  let signed : ℕ → ℤ := fun n => if isNeg then -(n : ℤ) else (n : ℤ)
  match afterInt with
  | [] =>
    if intPart.isEmpty then none
    else some (mkRat (signed (natOfDigits intPart)) 1)
  | ('.') :: frac =>
    if frac.all isDecDigit && !(intPart.isEmpty && frac.isEmpty) then
      some (mkRat (signed (natOfDigits intPart * 10 ^ frac.length + natOfDigits frac))
        (10 ^ frac.length))
    else none
  | _ => none

/-- Modelled from the spec: `parseFloatSafe` of the missing `src/utils` module.
Fields that are absent (`none`, the JS `undefined` of an out-of-range index)
or non-numeric yield NaN for that slot, never an exception. -/
def parseFloatSafe (s : Option String) : JSNum :=
  match s with
  | none => JSNum.nan
  | some str =>
    match parseDecimal str with
    | none => JSNum.nan
    | some q => JSNum.num q

/-- Hex digit value, case-insensitive, as used by the checksum comparison. -/
def hexVal (c : Char) : Option ℕ :=
  if ('0') ≤ c && c ≤ ('9') then some (c.toNat - ('0').toNat)
  else if ('a') ≤ c && c ≤ ('f') then some (c.toNat - ('a').toNat + 10)
  else if ('A') ≤ c && c ≤ ('F') then some (c.toNat - ('A').toNat + 10)
  else none

/-- XOR of the byte values of a list of characters. -/
def xorFold (l : List Char) : ℕ := l.foldl (fun a c => Nat.xor a c.toNat) 0

/-- Modelled from the spec: checksum validation of the external tokenizer.
A line must start with the `$` marker and carry a `*` delimiter followed by the
two-hex-digit checksum; the checksum is the XOR of all bytes between `$` and
`*`, compared case-insensitively. -/
def validNmeaChecksum (sentence : String) : Bool :=
  match sentence.toList with
  | ('$') :: rest =>
    let body := rest.takeWhile (fun c => c ≠ ('*'))
    match rest.dropWhile (fun c => c ≠ ('*')) with
    | ('*') :: h :: l :: [] =>
      match hexVal h, hexVal l with
      | some hv, some lv => decide (hv * 16 + lv = xorFold body)
      | _, _ => false
    | _ => false
  | _ => false

/-- Split a list of characters on the comma field separator, preserving empty
fields (field position is semantically meaningful, per the spec). -/
def splitFieldsAux : List Char → List (List Char)
  | [] => [[]]
  | c :: rest =>
    let r := splitFieldsAux rest
    if c = (',') then [] :: r
    else
      match r with
      | [] => [[c]]
      | h :: t => (c :: h) :: t

/-- Stub record produced by the tokenizer: talker prefix and 3-letter sentence
identifier, mirroring the `PacketStub` of the parsing layer. -/
structure PacketStub where
  talkerId : String
  sentenceId : String
deriving DecidableEq, Repr

/-- Modelled from the spec: the tokenizer splits the text before the checksum
delimiter on commas into ordered raw fields (the leading token included, as in
the source, so payload fields start at index 1); the sentence identifier is
the last 3 characters of the leading talker+sentence-id token and the talker
prefix is the part between the `$` start marker and those 3 characters, stored
separately. -/
def tokenizeSentence (sentence : String) : PacketStub × List String :=
  let body := sentence.toList.takeWhile (fun c => c ≠ ('*'))
  let fields := (splitFieldsAux body).map List.asString
  let token :=
    match body with
    | ('$') :: r => r.takeWhile (fun c => c ≠ (','))
    | r => r.takeWhile (fun c => c ≠ (','))
  let stub : PacketStub :=
    { talkerId := (token.take (token.length - 3)).asString
      sentenceId := (token.drop (token.length - 3)).asString }
  (stub, fields)

/-- Decoded DPT packet (src/parser/codecs/DPT.ts): water depth relative to the
transducer, offset from transducer, maximum range scale. The constant
`sentenceId`/`sentenceName` fields set by `initStubFields` are omitted; the
talker id is carried over from the stub as in the source. -/
structure DPTPacket where
  talkerId : String
  depthMeters : JSNum
  offsetMeters : JSNum
  maximumRangeScale : JSNum
deriving DecidableEq, Repr

/-- Decoded DBS packet (src/parser/codecs/DBS.ts): depth below surface in
feet, meters and fathoms. -/
structure DBSPacket where
  talkerId : String
  depthFeet : JSNum
  depthMeters : JSNum
  depthFathoms : JSNum
deriving DecidableEq, Repr

/-- Decoded DBK packet (src/parser/codecs/DBK.ts): depth below keel in feet,
meters and fathoms. -/
structure DBKPacket where
  talkerId : String
  depthFeet : JSNum
  depthMeters : JSNum
  depthFathoms : JSNum
deriving DecidableEq, Repr

namespace DPT

/-- Embeds `decodeSentence` of src/parser/codecs/DPT.ts: positional parse of
fields 1..3 with the fail-soft float parser. -/
def decodeSentence (stub : PacketStub) (fields : List String) : DPTPacket :=
  { talkerId := stub.talkerId
    depthMeters := parseFloatSafe fields[1]?
    offsetMeters := parseFloatSafe fields[2]?
    maximumRangeScale := parseFloatSafe fields[3]? }

end DPT

namespace DBS

/-- Embeds `decodeSentence` of src/parser/codecs/DBS.ts: positional parse of
fields 1, 3 and 5 with the fail-soft float parser. -/
def decodeSentence (stub : PacketStub) (fields : List String) : DBSPacket :=
  { talkerId := stub.talkerId
    depthFeet := parseFloatSafe fields[1]?
    depthMeters := parseFloatSafe fields[3]?
    depthFathoms := parseFloatSafe fields[5]? }

end DBS

namespace DBK

/-- Embeds `decodeSentence` of src/parser/codecs/DBK.ts: positional parse of
fields 1, 3 and 5 with the fail-soft float parser. -/
def decodeSentence (stub : PacketStub) (fields : List String) : DBKPacket :=
  { talkerId := stub.talkerId
    depthFeet := parseFloatSafe fields[1]?
    depthMeters := parseFloatSafe fields[3]?
    depthFathoms := parseFloatSafe fields[5]? }

end DBK

/-- Extended packet union of the parser layer: a built-in packet (decoded by
the external default factory, represented by its stub and raw fields since no
claim depends on built-in field decoding), one of the three custom depth
packets, or the distinguished unknown packet of the permissive mode. -/
inductive ExtPacket where
  | builtin (stub : PacketStub) (fields : List String)
  | dpt (p : DPTPacket)
  | dbs (p : DBSPacket)
  | dbk (p : DBKPacket)
  | unknown (stub : PacketStub) (fields : List String)
deriving DecidableEq, Repr

/-- Sentence identifier carried by a decoded packet; the unknown packet
carries the sentinel identifier `?` (modelled from the spec). -/
def ExtPacket.sentenceId : ExtPacket → String
  | ExtPacket.builtin stub _ => stub.sentenceId
  | ExtPacket.dpt _ => "DPT"
  | ExtPacket.dbs _ => "DBS"
  | ExtPacket.dbk _ => "DBK"
  | ExtPacket.unknown _ _ => "?"

/-- Embeds `assembleExtendedNmeaPacket` of src/parser/index.ts. The source
switches on `stub.talkerId` (not on the sentence identifier):

```
switch (stub.talkerId) {
  case 'DBS': return decodeDBS(stub, fields)
  case 'DBK': return decodeDBK(stub, fields)
  case 'DPT': return decodeDPT(stub, fields)
  default: return null
}
``` -/
def assembleExtendedNmeaPacket (stub : PacketStub) (fields : List String) : Option ExtPacket :=
  if stub.talkerId = "DBS" then some (ExtPacket.dbs (DBS.decodeSentence stub fields))
  else if stub.talkerId = "DBK" then some (ExtPacket.dbk (DBK.decodeSentence stub fields))
  else if stub.talkerId = "DPT" then some (ExtPacket.dpt (DPT.decodeSentence stub fields))
  else none

/-- Modelled from the spec: the closed set of sentence identifiers with
built-in decoders in the external default factory (position fixes,
course/speed, headings, date/time, depth-below-transducer, satellite data).
The three custom depth identifiers DPT, DBS, DBK are not built in. -/
def builtinSentenceIds : List String :=
  ["GGA", "GLL", "GNS", "GSA", "GSV", "HDG", "HDM", "HDT", "RMC", "VTG", "ZDA", "DBT"]

/-- Assembly function of the strict factory (`CustomPacketFactory` of
src/parser/index.ts layered on the default factory modelled from the spec):
built-in identifiers decode via the built-in codecs, anything else is handed
to `assembleExtendedNmeaPacket`; a null result means no parser. -/
def safeAssemble (stub : PacketStub) (fields : List String) : Option ExtPacket :=
  if stub.sentenceId ∈ builtinSentenceIds then some (ExtPacket.builtin stub fields)
  else assembleExtendedNmeaPacket stub fields

/-- Assembly function of the permissive factory (`UnsafePacketFactory` of
src/parser/index.ts): as the strict factory, but an unhandled stub falls
through to the distinguished unknown packet instead of failing. -/
def permissiveAssemble (stub : PacketStub) (fields : List String) : Option ExtPacket :=
  if stub.sentenceId ∈ builtinSentenceIds then some (ExtPacket.builtin stub fields)
  else
    match assembleExtendedNmeaPacket stub fields with
    | some p => some p
    | none => some (ExtPacket.unknown stub fields)

/-- Modelled from the spec: the generic parse entry point of the external
parsing layer. A line failing checksum validation (bad start marker, missing
delimiter or checksum mismatch) is a decode failure regardless of the factory;
otherwise the line is tokenized and the factory assembles the packet, a null
assembly being the "no known parser" failure. -/
def parseGenericPacket (assemble : PacketStub → List String → Option ExtPacket)
    (sentence : String) : Except String ExtPacket :=
  if validNmeaChecksum sentence then
    let stubAndFields := tokenizeSentence sentence
    match assemble stubAndFields.1 stubAndFields.2 with
    | some p => Except.ok p
    | none => Except.error ("No known parser for sentence ID " ++ stubAndFields.1.sentenceId)
  else Except.error ("Invalid sentence: " ++ sentence)

/-- Embeds `parseNmeaSentence` of src/parser/index.ts (strict mode). -/
def parseNmeaSentence (sentence : String) : Except String ExtPacket :=
  parseGenericPacket safeAssemble sentence

/-- Embeds `parseUnsafeNmeaSentence` of src/parser/index.ts (permissive
mode). -/
def parsePermissiveNmeaSentence (sentence : String) : Except String ExtPacket :=
  parseGenericPacket permissiveAssemble sentence

/-- Whether a parse produced a packet (as opposed to a decode failure). -/
def parseOk : Except String ExtPacket → Bool
  | Except.ok _ => true
  | Except.error _ => false


/-!
Navigation derivation layer, embedding the computation module
(`computeNavigationData` and its helpers). Packet records carry the fields the
computation reads; fields of the TypeScript interfaces that the computation
never touches are omitted. A field is modelled as `Option JSNum` exactly where
the computation checks it against `undefined` (directly or via the `?.`/`??`
operators); `Date` values are modelled by their millisecond timestamp. -/

/-- GGA packet fields read by the computation: fix type, coordinates, UTC
time, altitude, satellite count and horizontal dilution. -/
structure GGAPacket where
  fixType : String
  latitude : JSNum
  longitude : JSNum
  time : JSNum
  altitudeMeters : JSNum
  satellitesInView : JSNum
  horizontalDilution : JSNum
deriving DecidableEq, Repr

/-- RMC packet fields read by the computation: status, coordinates, datetime,
speed and course over ground (checked against `undefined` via `?.`/`??`). -/
structure RMCPacket where
  status : String
  latitude : JSNum
  longitude : JSNum
  datetime : JSNum
  speedKnots : JSNum
  trackTrue : Option JSNum
deriving DecidableEq, Repr

/-- GLL packet fields read by the computation: status, coordinates, time. -/
structure GLLPacket where
  status : String
  latitude : JSNum
  longitude : JSNum
  time : JSNum
deriving DecidableEq, Repr

/-- VTG packet fields read by the computation: speed in knots and course over
ground (checked against `undefined` via `?.`/`??`). -/
structure VTGPacket where
  speedKnots : JSNum
  trackTrue : Option JSNum
deriving DecidableEq, Repr

/-- HDT packet field read by the computation: the true heading, checked
against `undefined` before use. -/
structure HDTPacket where
  heading : Option JSNum
deriving DecidableEq, Repr

/-- HDG packet fields read by the computation: magnetic heading (checked
against `undefined`), variation magnitude and variation direction. -/
structure HDGPacket where
  heading : Option JSNum
  variation : JSNum
  variationDirection : String
deriving DecidableEq, Repr

/-- ZDA packet fields read by the computation: UTC datetime and the local
zone offset split into hours and minutes. -/
structure ZDAPacket where
  datetime : JSNum
  localZoneHours : JSNum
  localZoneMinutes : JSNum
deriving DecidableEq, Repr

/-- DBT packet field read by the computation (used without any
`undefined` check in the source). -/
structure DBTPacket where
  depthMeters : JSNum
deriving DecidableEq, Repr

/-- Structural view used by `computeDepth` for the DPT, DBS and DBK slots: the
source declares these parameters as records with an optional `depthMeters`
field and checks it against `undefined`. -/
structure DepthView where
  depthMeters : Option JSNum
deriving DecidableEq, Repr

/-- Derived time field of the navigation snapshot; `localTime` models the
TypeScript field named `local`. -/
structure NavTime where
  utc : JSNum
  localTime : Option JSNum
  source : String
deriving DecidableEq, Repr

/-- Derived position field of the navigation snapshot. Optional members are
present only for the source that supplies them. -/
structure NavPosition where
  latitude : JSNum
  longitude : JSNum
  source : String
  fixType : Option String
  status : Option String
  altitudeMeters : Option JSNum
  satellitesInView : Option JSNum
  horizontalDilution : Option JSNum
deriving DecidableEq, Repr

/-- Derived speed field of the navigation snapshot. -/
structure NavSpeed where
  knots : JSNum
  source : String
deriving DecidableEq, Repr

/-- Derived heading field of the navigation snapshot; `isDerived` marks a
course-over-ground proxy. -/
structure NavHeading where
  degreesTrue : JSNum
  source : String
  isDerived : Bool
deriving DecidableEq, Repr

/-- Derived depth field of the navigation snapshot. -/
structure NavDepth where
  meters : JSNum
  source : String
deriving DecidableEq, Repr

/-- Derived navigation snapshot: five independent optional fields. -/
structure NavigationData where
  time : Option NavTime
  position : Option NavPosition
  speed : Option NavSpeed
  heading : Option NavHeading
  depth : Option NavDepth
deriving DecidableEq, Repr

/-- Embeds `computePosition`: the source is a chain of early returns (GGA with
a fix, then valid RMC, then valid GLL, then null), transliterated as a
first-match-wins `<|>` chain. -/
def computePosition (gga : Option GGAPacket) (rmc : Option RMCPacket)
    (gll : Option GLLPacket) : Option NavPosition :=
  (gga.bind fun g =>
    if g.fixType ≠ "none" then
      some { latitude := g.latitude, longitude := g.longitude, source := "GGA"
             fixType := some g.fixType, status := none
             altitudeMeters := some g.altitudeMeters
             satellitesInView := some g.satellitesInView
             horizontalDilution := some g.horizontalDilution }
    else none)
  <|> (rmc.bind fun r =>
    if r.status = "valid" then
      some { latitude := r.latitude, longitude := r.longitude, source := "RMC"
             fixType := none, status := some r.status
             altitudeMeters := none, satellitesInView := none
             horizontalDilution := none }
    else none)
  <|> (gll.bind fun l =>
    if l.status = "valid" then
      some { latitude := l.latitude, longitude := l.longitude, source := "GLL"
             fixType := none, status := some "valid"
             altitudeMeters := none, satellitesInView := none
             horizontalDilution := none }
    else none)

/-- Embeds `computeTime`: ZDA first (the only path populating local time, by
adding the zone offset in minutes to the UTC datetime, `setMinutes` being
modelled as millisecond addition), then GGA with a fix, then valid RMC, then
valid GLL. -/
def computeTime (zda : Option ZDAPacket) (gga : Option GGAPacket)
    (rmc : Option RMCPacket) (gll : Option GLLPacket) : Option NavTime :=
  (zda.map fun z =>
    let offsetMinutes := (z.localZoneHours.mul (JSNum.num 60)).add z.localZoneMinutes
    { utc := z.datetime
      localTime := some (z.datetime.add (offsetMinutes.mul (JSNum.num 60000)))
      source := "ZDA" })
  <|> (gga.bind fun g =>
    if g.fixType ≠ "none" then some { utc := g.time, localTime := none, source := "GGA" }
    else none)
  <|> (rmc.bind fun r =>
    if r.status = "valid" then some { utc := r.datetime, localTime := none, source := "RMC" }
    else none)
  <|> (gll.bind fun l =>
    if l.status = "valid" then some { utc := l.time, localTime := none, source := "GLL" }
    else none)

/-- Embeds `computeSpeed`: any VTG first, then a valid RMC. -/
def computeSpeed (vtg : Option VTGPacket) (rmc : Option RMCPacket) : Option NavSpeed :=
  (vtg.map fun v => { knots := v.speedKnots, source := "VTG" })
  <|> (rmc.bind fun r =>
    if r.status = "valid" then some { knots := r.speedKnots, source := "RMC" }
    else none)

/-- Embeds `calculateVariationValue`: direction `W` negates the variation
magnitude, `E` keeps it, anything else (the empty direction) defaults to
positive. -/
def calculateVariationValue (hdg : HDGPacket) : JSNum :=
  if hdg.variationDirection = "W" then hdg.variation.neg
  else if hdg.variationDirection = "E" then hdg.variation
  else hdg.variation

/-- Embeds `computeHeading`: HDT with a defined heading, then HDG (magnetic
heading plus signed variation), then course over ground taken from RMC or VTG
(in that order, via the `??` chain) flagged as derived. -/
def computeHeading (hdt : Option HDTPacket) (hdg : Option HDGPacket)
    (rmc : Option RMCPacket) (vtg : Option VTGPacket) : Option NavHeading :=
  (hdt.bind fun h =>
    h.heading.map fun hv => { degreesTrue := hv, source := "HDT", isDerived := false })
  <|> (hdg.bind fun h =>
    h.heading.map fun hv =>
      { degreesTrue := hv.add (calculateVariationValue h), source := "HDG", isDerived := false })
  <|> (((rmc.bind fun r => r.trackTrue) <|> (vtg.bind fun v => v.trackTrue)).map fun cog =>
    { degreesTrue := cog, source := "COG", isDerived := true })

/-- Embeds `computeDepth`: DPT with a defined depth, then any DBT, then DBS
with a defined depth, then DBK with a defined depth. -/
def computeDepth (dpt : Option DepthView) (dbt : Option DBTPacket)
    (dbs : Option DepthView) (dbk : Option DepthView) : Option NavDepth :=
  (dpt.bind fun d => d.depthMeters.map fun m => { meters := m, source := "DPT" })
  <|> (dbt.map fun d => { meters := d.depthMeters, source := "DBT" })
  <|> (dbs.bind fun d => d.depthMeters.map fun m => { meters := m, source := "DBS" })
  <|> (dbk.bind fun d => d.depthMeters.map fun m => { meters := m, source := "DBK" })

/-- Packet cache of the navigation instantiation (`StoredPackets`): at most
one packet per sentence identifier. -/
structure StoredPackets where
  GGA : Option GGAPacket := none
  RMC : Option RMCPacket := none
  GLL : Option GLLPacket := none
  VTG : Option VTGPacket := none
  HDT : Option HDTPacket := none
  HDG : Option HDGPacket := none
  DPT : Option DepthView := none
  DBT : Option DBTPacket := none
  DBS : Option DepthView := none
  DBK : Option DepthView := none
  ZDA : Option ZDAPacket := none
deriving DecidableEq, Repr

/-- Embeds `computeNavigationData`: each of the five derived fields is
computed independently from the cache by its own priority fallback. -/
def computeNavigationData (packets : StoredPackets) : NavigationData :=
  { time := computeTime packets.ZDA packets.GGA packets.RMC packets.GLL
    position := computePosition packets.GGA packets.RMC packets.GLL
    speed := computeSpeed packets.VTG packets.RMC
    heading := computeHeading packets.HDT packets.HDG packets.RMC packets.VTG
    depth := computeDepth packets.DPT packets.DBT packets.DBS packets.DBK }

/-- Embeds `createNavigationAdapter` of src/adapters/navigation/adapter.ts:
the returned closure calls `computeNavigationData(packets, externalVariation)`,
but `computeNavigationData` declares a single parameter, so the captured
variation is an extra argument that the function never consumes (modelled by
dropping it, as the JavaScript call does at runtime). -/
def createNavigationAdapter (externalVariation : Option ℚ) :
    StoredPackets → NavigationData :=
  fun packets =>
    let _ := externalVariation
    computeNavigationData packets

/-- Initial navigation data state (`initialNavigationData`). -/
def initialNavigationData : NavigationData :=
  { time := none, position := none, speed := none, heading := none, depth := none }

/-- Initial stored packets state (`initialNavigationPackets`). -/
def initialNavigationPackets : StoredPackets := {}

/-!
Generic machine layer (`src/core/index.ts`): the allow-list check, the packet
cache update action `storePacket`, the error actions, and the event handling
of the machine states. Actor-driven transitions (the invoked promises of the
connecting/disconnecting states) are outside this pure layer; the step
function models the event handlers declared on the states. The packet type is
treated opaquely by this layer, so it is modelled as a sentence identifier
plus an opaque payload, and the cache as a map from identifier to packet. -/

/-- Packet as seen by the generic machine: a sentence identifier and an
opaque decoded payload. -/
structure GenPacket where
  sentenceId : String
  payload : ℕ
deriving DecidableEq, Repr

/-- Packet cache of the generic machine: latest packet per sentence id. -/
def PacketCache : Type := String → Option GenPacket

/-- Embeds `isAllowedSentenceId`: an absent or empty allow-list accepts every
identifier; otherwise the identifier must be defined and a member. -/
def isAllowedSentenceId (sentenceId : Option String) (allowedIds : Option (List String)) : Bool :=
  match allowedIds with
  | none => true
  | some ids =>
    if ids.length = 0 then true
    else
      match sentenceId with
      | none => false
      | some sid => ids.contains sid

/-- Machine context (`NmeaContext`): the serial port handle is external state
modelled opaquely, the data field is the adapter output type. -/
structure NmeaContext (D : Type) where
  port : Option Unit
  error : Option String
  packets : PacketCache
  data : D
  enableLogging : Bool
  baudRate : ℕ

/-- Embeds the `storePacket` action: when the packet's sentence id is truthy
(nonempty) and allowed, the cache entry for that id is replaced wholesale and
the adapter recomputes the data from the new cache; otherwise the cache is
returned unchanged but the adapter is still re-invoked on the unchanged
cache. Both branches clear the error field. -/
def storePacket {D : Type} (adapter : PacketCache → D) (allowedIds : Option (List String))
    (ctx : NmeaContext D) (packet : GenPacket) : NmeaContext D :=
  if packet.sentenceId != "" && isAllowedSentenceId (some packet.sentenceId) allowedIds then
    let newPackets : PacketCache :=
      fun k => if k = packet.sentenceId then some packet else ctx.packets k
    { ctx with packets := newPackets, data := adapter newPackets, error := none }
  else
    { ctx with packets := ctx.packets, data := adapter ctx.packets, error := none }

/-- Embeds the `clearError` action, which (despite its name) sets the serial
error message in the context. -/
def clearError {D : Type} (ctx : NmeaContext D) (error : String) : NmeaContext D :=
  { ctx with error := some error }

/-- Embeds the `setFatalError` action. -/
def setFatalError {D : Type} (ctx : NmeaContext D) (error : String) : NmeaContext D :=
  { ctx with error := some error }

/-- Machine states of the connection lifecycle. -/
inductive NmeaState where
  | disconnected
  | connecting
  | connected
  | disconnecting
  | error
deriving DecidableEq, Repr

/-- Events handled by the machine (the payload-free actor bookkeeping events
are modelled by their effect on state and context only). -/
inductive NmeaEvent where
  | connect
  | disconnect
  | serialData (data : GenPacket)
  | serialError (error : String)
  | fatalError (error : String)
  | serialDisconnected
  | stop
  | setLogging (enabled : Bool)
  | setBaudRate (baudRate : ℕ)
deriving DecidableEq, Repr

/-- Embeds the event handlers declared on the machine states: the root-level
SET_LOGGING handler, the disconnected state's CONNECT and SET_BAUD_RATE, and
the connected state's SERIAL.DATA (log + store), SERIAL.ERROR (set error
message), FATAL_ERROR (set message, go to error), SERIAL.DISCONNECTED and
DISCONNECT (which only signals the stream reader). Unhandled events leave
state and context unchanged, as in XState; actor completions (onDone/onError
of the invoked promises) are not events and are out of scope. The
`logParsedData` action only writes to the console and has no context
effect. -/
def machineStep {D : Type} (adapter : PacketCache → D) (allowedIds : Option (List String)) :
    NmeaState → NmeaContext D → NmeaEvent → NmeaState × NmeaContext D
  | s, ctx, NmeaEvent.setLogging b => (s, { ctx with enableLogging := b })
  | NmeaState.disconnected, ctx, NmeaEvent.connect => (NmeaState.connecting, ctx)
  | NmeaState.disconnected, ctx, NmeaEvent.setBaudRate br =>
    (NmeaState.disconnected, { ctx with baudRate := br })
  | NmeaState.connected, ctx, NmeaEvent.serialData p =>
    (NmeaState.connected, storePacket adapter allowedIds ctx p)
  | NmeaState.connected, ctx, NmeaEvent.serialError e =>
    (NmeaState.connected, clearError ctx e)
  | NmeaState.connected, ctx, NmeaEvent.fatalError e =>
    (NmeaState.error, setFatalError ctx e)
  | NmeaState.connected, ctx, NmeaEvent.serialDisconnected =>
    (NmeaState.disconnecting, ctx)
  | NmeaState.error, ctx, NmeaEvent.connect => (NmeaState.connecting, ctx)
  | s, ctx, _ => (s, ctx)

/-- Empty packet cache. -/
def emptyCache : PacketCache := fun _ => none

/-- A context with an empty cache, used to instantiate concrete scenarios;
the adapter output is the identity on caches so stored data is observable. -/
def emptyCtx : NmeaContext PacketCache :=
  { port := none, error := none, packets := emptyCache, data := emptyCache
    enableLogging := false, baudRate := 4800 }

/-!
Spec-side definitions. For the refinement claims about the derivation
priorities, a second set of definitions follows the spec's words (priority
cascade written as fall-through cases); the theorems compare them with the
definitions embedded from the source. -/

/-- Follows the spec's words: the geographic-position sentence supplies the
position only if its status field equals "valid". -/
def gllPositionSpec (gll : Option GLLPacket) : Option NavPosition :=
  match gll with
  | some l =>
    if l.status = "valid" then
      some { latitude := l.latitude, longitude := l.longitude, source := "GLL"
             fixType := none, status := some "valid"
             altitudeMeters := none, satellitesInView := none
             horizontalDilution := none }
    else none
  | none => none

/-- Follows the spec's words: the recommended-minimum sentence supplies the
position if its status is "valid", else the geographic-position sentence is
tried. -/
def rmcPositionSpec (rmc : Option RMCPacket) (gll : Option GLLPacket) : Option NavPosition :=
  match rmc with
  | some r =>
    if r.status = "valid" then
      some { latitude := r.latitude, longitude := r.longitude, source := "RMC"
             fixType := none, status := some r.status
             altitudeMeters := none, satellitesInView := none
             horizontalDilution := none }
    else gllPositionSpec gll
  | none => gllPositionSpec gll

/-- Follows the spec's words: first-match-wins position priority — a
position-fix sentence with a non-"none" fix type wins (carrying fix type,
altitude, satellite count and horizontal dilution), else the
recommended-minimum sentence, else the geographic-position sentence, else
absent; only one source is ever reported and no fields are merged. -/
def positionSpec (gga : Option GGAPacket) (rmc : Option RMCPacket)
    (gll : Option GLLPacket) : Option NavPosition :=
  match gga with
  | some g =>
    if g.fixType ≠ "none" then
      some { latitude := g.latitude, longitude := g.longitude, source := "GGA"
             fixType := some g.fixType, status := none
             altitudeMeters := some g.altitudeMeters
             satellitesInView := some g.satellitesInView
             horizontalDilution := some g.horizontalDilution }
    else rmcPositionSpec rmc gll
  | none => rmcPositionSpec rmc gll

/-- Follows the spec's words: signed variation — direction "W" negates the
magnitude, anything else ("E" or empty/unspecified) keeps it positive. -/
def signedVariationSpec (variation : JSNum) (direction : String) : JSNum :=
  if direction = "W" then variation.neg else variation

/-- Follows the spec's words: course-over-ground fallback taken from the
minimum sentence first, then the course/speed sentence. -/
def cogSpec (rmc : Option RMCPacket) (vtg : Option VTGPacket) : Option JSNum :=
  match rmc with
  | some r =>
    match r.trackTrue with
    | some t => some t
    | none => vtg.bind fun v => v.trackTrue
  | none => vtg.bind fun v => v.trackTrue

/-- Follows the spec's words: heading priority — the true-heading sentence
first (if its heading is defined), else the magnetic-heading sentence
converted to true by adding the signed variation, else course over ground
flagged as derived, else absent. -/
def headingSpec (hdt : Option HDTPacket) (hdg : Option HDGPacket)
    (rmc : Option RMCPacket) (vtg : Option VTGPacket) : Option NavHeading :=
  match hdt with
  | some h =>
    match h.heading with
    | some hv => some { degreesTrue := hv, source := "HDT", isDerived := false }
    | none => headingSpecNoHdt hdg rmc vtg
  | none => headingSpecNoHdt hdg rmc vtg
where
  /-- Fall-through of the heading priority once the true-heading sentence is
  unavailable. -/
  headingSpecNoHdt (hdg : Option HDGPacket) (rmc : Option RMCPacket)
      (vtg : Option VTGPacket) : Option NavHeading :=
    match hdg with
    | some h =>
      match h.heading with
      | some hv =>
        some { degreesTrue := hv.add (signedVariationSpec h.variation h.variationDirection)
               source := "HDG", isDerived := false }
      | none => (cogSpec rmc vtg).map fun c =>
          { degreesTrue := c, source := "COG", isDerived := true }
    | none => (cogSpec rmc vtg).map fun c =>
        { degreesTrue := c, source := "COG", isDerived := true }

/-- Follows the spec's words: time fall-through once the date/time sentence is
absent — fix-sentence time (if fix valid), then minimum-sentence datetime (if
status valid), then geo-sentence time (if status valid), each populating UTC
only with local explicitly null. -/
def timeSpecFallback (gga : Option GGAPacket) (rmc : Option RMCPacket)
    (gll : Option GLLPacket) : Option NavTime :=
  match gga with
  | some g =>
    if g.fixType ≠ "none" then some { utc := g.time, localTime := none, source := "GGA" }
    else timeSpecRmc rmc gll
  | none => timeSpecRmc rmc gll
where
  /-- Minimum-sentence then geo-sentence time fall-through. -/
  timeSpecRmc (rmc : Option RMCPacket) (gll : Option GLLPacket) : Option NavTime :=
    match rmc with
    | some r =>
      if r.status = "valid" then some { utc := r.datetime, localTime := none, source := "RMC" }
      else timeSpecGll gll
    | none => timeSpecGll gll
  /-- Geo-sentence time, if its status is valid. -/
  timeSpecGll (gll : Option GLLPacket) : Option NavTime :=
    match gll with
    | some l =>
      if l.status = "valid" then some { utc := l.time, localTime := none, source := "GLL" }
      else none
    | none => none

/-- Follows the spec's words: the dedicated date/time sentence is tried first
and is the only path populating local time, computed by adding
`(zoneHours*60 + zoneMinutes)` minutes to the UTC datetime. -/
def timeSpec (zda : Option ZDAPacket) (gga : Option GGAPacket)
    (rmc : Option RMCPacket) (gll : Option GLLPacket) : Option NavTime :=
  match zda with
  | some z =>
    some { utc := z.datetime
           localTime := some (z.datetime.add
             (((z.localZoneHours.mul (JSNum.num 60)).add z.localZoneMinutes).mul
               (JSNum.num 60000)))
           source := "ZDA" }
  | none => timeSpecFallback gga rmc gll

/-!
Claim theorems. -/

/-- C2: for every packet cache the derived position is computed by
first-match-wins priority — a GGA packet with a fix yields GGA's coordinates
with source "GGA" plus fix type, altitude, satellites in view and horizontal
dilution; else a valid RMC yields RMC's coordinates with source "RMC"; else a
valid GLL yields GLL's coordinates with source "GLL"; else the position is
absent. Only one source is ever reported and no fields are merged; in
particular, with a fix-type GGA and a valid RMC with different coordinates
both cached, the result is GGA's coordinates with source "GGA". -/
theorem computePosition_priority_follows_spec :
    (∀ gga rmc gll, computePosition gga rmc gll = positionSpec gga rmc gll)
    ∧ (∀ packets : StoredPackets,
        (computeNavigationData packets).position
          = positionSpec packets.GGA packets.RMC packets.GLL)
    ∧ computePosition
        (some { fixType := "fix", latitude := JSNum.num 1, longitude := JSNum.num 2
                time := JSNum.num 0, altitudeMeters := JSNum.num 10
                satellitesInView := JSNum.num 8, horizontalDilution := JSNum.num 1 })
        (some { status := "valid", latitude := JSNum.num 3, longitude := JSNum.num 4
                datetime := JSNum.num 0, speedKnots := JSNum.num 5, trackTrue := none })
        none
      = some { latitude := JSNum.num 1, longitude := JSNum.num 2, source := "GGA"
               fixType := some "fix", status := none
               altitudeMeters := some (JSNum.num 10)
               satellitesInView := some (JSNum.num 8)
               horizontalDilution := some (JSNum.num 1) } := by
  have main : ∀ gga rmc gll, computePosition gga rmc gll = positionSpec gga rmc gll := by
    intro gga rmc gll
    cases gga <;> cases rmc <;> cases gll <;>
      simp [computePosition, positionSpec, rmcPositionSpec, gllPositionSpec] <;>
      (repeat' split) <;> (try simp_all)
  exact ⟨main, fun packets => main packets.GGA packets.RMC packets.GLL, rfl⟩

/-- C3: for every packet cache the derived heading is computed by priority —
an HDT packet with a defined heading wins with `isDerived = false`; else an
HDG packet with a defined heading yields magnetic heading plus signed
variation (direction "W" negates the magnitude, "E" or empty keeps it
positive) with `isDerived = false`; else course over ground taken from RMC
first then VTG yields the heading with `isDerived = true`; else the heading
is absent. Concretely, heading 98.3 with variation 12.6 and direction "W"
yields true heading 85.7. -/
theorem computeHeading_priority_follows_spec :
    (∀ hdt hdg rmc vtg, computeHeading hdt hdg rmc vtg = headingSpec hdt hdg rmc vtg)
    ∧ (∀ packets : StoredPackets,
        (computeNavigationData packets).heading
          = headingSpec packets.HDT packets.HDG packets.RMC packets.VTG)
    ∧ computeHeading none
        (some { heading := some (JSNum.num (983 / 10)), variation := JSNum.num (63 / 5)
                variationDirection := "W" }) none none
      = some { degreesTrue := JSNum.num (857 / 10), source := "HDG", isDerived := false } := by
  have main : ∀ hdt hdg rmc vtg,
      computeHeading hdt hdg rmc vtg = headingSpec hdt hdg rmc vtg := by
    intro hdt hdg rmc vtg
    cases hdt <;> cases hdg <;> cases rmc <;> cases vtg <;>
      simp [computeHeading, headingSpec, headingSpec.headingSpecNoHdt, cogSpec,
        signedVariationSpec, calculateVariationValue] <;>
      (repeat' split) <;> (try simp_all)
  refine ⟨main, fun packets => main packets.HDT packets.HDG packets.RMC packets.VTG, ?_⟩
  simp [computeHeading, calculateVariationValue, JSNum.add, JSNum.neg]
  norm_num

/-- C4: for every packet cache the derived time is computed by priority ZDA,
then GGA (if its fix is not "none"), then RMC (if valid), then GLL (if
valid), else absent; only the ZDA path populates local time, by adding
`(localZoneHours*60 + localZoneMinutes)` minutes to the UTC datetime, while
every other source sets local to null. Concretely, a zone offset of -1h00m
shifts any UTC timestamp back by 3600000 milliseconds. -/
theorem computeTime_priority_follows_spec :
    (∀ zda gga rmc gll, computeTime zda gga rmc gll = timeSpec zda gga rmc gll)
    ∧ (∀ packets : StoredPackets,
        (computeNavigationData packets).time
          = timeSpec packets.ZDA packets.GGA packets.RMC packets.GLL)
    ∧ (∀ u : ℚ, computeTime
        (some { datetime := JSNum.num u, localZoneHours := JSNum.num (-1)
                localZoneMinutes := JSNum.num 0 }) none none none
      = some { utc := JSNum.num u, localTime := some (JSNum.num (u - 3600000))
               source := "ZDA" })
    ∧ (∀ g rmc gll, computeTime none (some g) rmc gll
        = timeSpecFallback (some g) rmc gll) := by
  have main : ∀ zda gga rmc gll, computeTime zda gga rmc gll = timeSpec zda gga rmc gll := by
    intro zda gga rmc gll
    cases zda <;> cases gga <;> cases rmc <;> cases gll <;>
      simp [computeTime, timeSpec, timeSpecFallback, timeSpecFallback.timeSpecRmc,
        timeSpecFallback.timeSpecGll] <;>
      (repeat' split) <;> (try simp_all)
  refine ⟨main, fun packets => main packets.ZDA packets.GGA packets.RMC packets.GLL, ?_, ?_⟩
  · intro u
    simp [computeTime, JSNum.mul, JSNum.add]
    ring
  · intro g rmc gll
    rw [main]
    rfl

/-- C7: the navigation derivation `computeNavigationData` is total (it is a
total function of the cache value, so it cannot raise), the empty cache
yields all five derived fields absent, and it is deterministic — two
applications to the identical cache value are equal. -/
theorem computeNavigationData_total_deterministic :
    computeNavigationData {} = { time := none, position := none, speed := none
                                 heading := none, depth := none }
    ∧ computeNavigationData initialNavigationPackets = initialNavigationData
    ∧ (∀ packets : StoredPackets,
        computeNavigationData packets = computeNavigationData packets) :=
  ⟨rfl, rfl, fun _ => rfl⟩

/-- C10: the navigation adapter's output is independent of the configured
magnetic variation — for any two externalVariation values the adapters
returned by `createNavigationAdapter` produce equal navigation data, because
the captured variation is never consumed by `computeNavigationData`. -/
theorem navigationAdapter_variation_independent :
    ∀ (v1 v2 : Option ℚ) (packets : StoredPackets),
      createNavigationAdapter v1 packets = createNavigationAdapter v2 packets :=
  fun _ _ _ => rfl

/-- C6: for every cache state and incoming packet, `storePacket` either
replaces exactly the entry for the packet's sentence id — leaving every other
entry untouched, last-write-wins, with the data recomputed from the new
cache — when the sentence id passes the allow-list (an absent or empty
allow-list accepts every identifier), or returns the cache unchanged while
still re-invoking the derivation function on the unchanged cache when the
allow-list rejects the id. The sentence id of a decoded packet is nonempty,
which the truthiness guard of the source requires. -/
theorem storePacket_allowList_frame :
    (∀ (D : Type) (adapter : PacketCache → D) (allowedIds : Option (List String))
        (ctx : NmeaContext D) (p : GenPacket),
      p.sentenceId ≠ "" →
      (isAllowedSentenceId (some p.sentenceId) allowedIds = true →
          (storePacket adapter allowedIds ctx p).packets p.sentenceId = some p
          ∧ (∀ k, k ≠ p.sentenceId →
              (storePacket adapter allowedIds ctx p).packets k = ctx.packets k)
          ∧ (storePacket adapter allowedIds ctx p).data
              = adapter ((storePacket adapter allowedIds ctx p).packets))
      ∧ (isAllowedSentenceId (some p.sentenceId) allowedIds = false →
          (storePacket adapter allowedIds ctx p).packets = ctx.packets
          ∧ (storePacket adapter allowedIds ctx p).data = adapter ctx.packets))
    ∧ (∀ sid : String,
        isAllowedSentenceId (some sid) none = true
        ∧ isAllowedSentenceId (some sid) (some []) = true) := by
  constructor
  · intro D adapter allowedIds ctx p hsid
    constructor
    · intro hallow
      simp [storePacket, hallow, hsid]
      intro k hk hk2
      exact absurd hk2 hk
    · intro hallow
      simp [storePacket, hallow]
  · intro sid
    exact ⟨rfl, rfl⟩

/-- Witness for C6: with allow-list GGA, RMC on the empty cache, a GLL packet
leaves the GLL entry absent while a GGA packet populates the GGA entry. -/
theorem storePacket_allowList_frame_witness :
    (storePacket (fun c => c) (some ["GGA", "RMC"]) emptyCtx ⟨"GLL", 7⟩).packets "GLL" = none
    ∧ (storePacket (fun c => c) (some ["GGA", "RMC"]) emptyCtx ⟨"GGA", 5⟩).packets "GGA"
        = some ⟨"GGA", 5⟩ := by
  constructor
  · have h := ((storePacket_allowList_frame.1 PacketCache (fun c => c)
      (some ["GGA", "RMC"]) emptyCtx ⟨"GLL", 7⟩ (by decide)).2 (by decide)).1
    rw [h]
    rfl
  · exact ((storePacket_allowList_frame.1 PacketCache (fun c => c)
      (some ["GGA", "RMC"]) emptyCtx ⟨"GGA", 5⟩ (by decide)).1 (by decide)).1

/-- C9: decode failures are local — handling a SERIAL.ERROR event in the
connected state leaves the packet cache and the derived data unchanged and
only updates the error message field, staying in the connected state. -/
theorem serialError_preserves_cache :
    ∀ (D : Type) (adapter : PacketCache → D) (allowedIds : Option (List String))
      (ctx : NmeaContext D) (msg : String),
      machineStep adapter allowedIds NmeaState.connected ctx (NmeaEvent.serialError msg)
        = (NmeaState.connected, { ctx with error := some msg })
      ∧ (machineStep adapter allowedIds NmeaState.connected ctx
          (NmeaEvent.serialError msg)).2.packets = ctx.packets
      ∧ (machineStep adapter allowedIds NmeaState.connected ctx
          (NmeaEvent.serialError msg)).2.data = ctx.data := by
  intro D adapter allowedIds ctx msg
  exact ⟨rfl, rfl, rfl⟩

/-- C1 (code defect): the claim says decoder dispatch for the three custom
depth decoders is keyed only on the 3-letter sentence identifier and that the
talker prefix never affects which decoder runs, `$IIDPT` dispatching to the
DPT custom decoder. The source's `assembleExtendedNmeaPacket` switches on
`stub.talkerId` instead: for the repository's own DPT sentence the stub is
talker "II" / sentence id "DPT", no case matches, strict parsing fails with
"no known parser" and permissive parsing yields the unknown packet; the
custom decoder runs only when the 2-letter talker slot itself spells "DPT". -/
theorem custom_dispatch_keyed_on_talker_id :
    (tokenizeSentence "$IIDPT,15.5,2.3,100.0*73").1 = ⟨"II", "DPT"⟩
    ∧ (∀ fields, assembleExtendedNmeaPacket ⟨"II", "DPT"⟩ fields = none)
    ∧ parseOk (parseNmeaSentence "$IIDPT,15.5,2.3,100.0*73") = false
    ∧ parsePermissiveNmeaSentence "$IIDPT,15.5,2.3,100.0*73"
        = Except.ok (ExtPacket.unknown ⟨"II", "DPT"⟩ ["$IIDPT", "15.5", "2.3", "100.0"])
    ∧ (ExtPacket.unknown (⟨"II", "DPT"⟩ : PacketStub)
        ["$IIDPT", "15.5", "2.3", "100.0"]).sentenceId = "?"
    ∧ assembleExtendedNmeaPacket ⟨"DPT", "XXX"⟩ []
        = some (ExtPacket.dpt ⟨"DPT", JSNum.nan, JSNum.nan, JSNum.nan⟩) := by
  refine ⟨by decide, fun fields => rfl, by decide, by rfl, by decide, by rfl⟩

/-- C5 (code defect): the claim says a structurally valid custom depth
sentence with a non-numeric field decodes to a DPT packet with NaN in that
slot only, via `parseNmeaSentence`. The DPT field decoder itself does satisfy
the fail-soft contract — on the fields of `$IIDPT,abc,2.3,100.0` it yields a
non-finite depth with offset 2.3 and range 100.0 and never fails — but the
parse pipeline never reaches it, because the custom dispatch switches on the
talker prefix, so strict parsing of the sentence fails instead of producing a
DPT packet. -/
theorem dpt_decoder_fail_soft_not_reached :
    DPT.decodeSentence ⟨"II", "DPT"⟩ ["$IIDPT", "abc", "2.3", "100.0"]
      = { talkerId := "II", depthMeters := JSNum.nan
          offsetMeters := JSNum.num (mkRat 23 10)
          maximumRangeScale := JSNum.num (mkRat 100 1) }
    ∧ (DPT.decodeSentence ⟨"II", "DPT"⟩ ["$IIDPT", "abc", "2.3", "100.0"]).depthMeters.isFinite
        = false
    ∧ validNmeaChecksum "$IIDPT,abc,2.3,100.0*0C" = true
    ∧ (tokenizeSentence "$IIDPT,abc,2.3,100.0*0C").2 = ["$IIDPT", "abc", "2.3", "100.0"]
    ∧ parseOk (parseNmeaSentence "$IIDPT,abc,2.3,100.0*0C") = false := by
  refine ⟨by decide, by decide, by decide, by decide, by decide⟩

/-- C8: a sentence failing checksum validation is a decode failure in both
strict and permissive mode — checksum validation is independent of the
dispatch mode; only an unknown sentence identifier is mode-dependent, being
an error in strict mode and the distinguished unknown packet with sentinel
sentence id "?" in permissive mode. -/
theorem checksum_failure_mode_independent :
    (∀ s : String, validNmeaChecksum s = false →
      parseOk (parseNmeaSentence s) = false
      ∧ parseOk (parsePermissiveNmeaSentence s) = false)
    ∧ (∀ s : String,
        validNmeaChecksum s = true →
        (tokenizeSentence s).1.sentenceId ∉ builtinSentenceIds →
        assembleExtendedNmeaPacket (tokenizeSentence s).1 (tokenizeSentence s).2 = none →
        parseOk (parseNmeaSentence s) = false
        ∧ parsePermissiveNmeaSentence s
            = Except.ok (ExtPacket.unknown (tokenizeSentence s).1 (tokenizeSentence s).2)
        ∧ (ExtPacket.unknown (tokenizeSentence s).1 (tokenizeSentence s).2).sentenceId
            = "?") := by
  constructor
  · intro s h
    constructor <;>
      simp [parseNmeaSentence, parsePermissiveNmeaSentence, parseGenericPacket, h, parseOk]
  · intro s hv hnb hnone
    refine ⟨?_, ?_, rfl⟩
    · simp [parseNmeaSentence, parseGenericPacket, hv, safeAssemble, hnb, hnone, parseOk]
    · simp [parsePermissiveNmeaSentence, parseGenericPacket, hv, permissiveAssemble, hnb, hnone]

/-- Witness for C8: the sentence `$IIXYZ,1,2*58` has a valid checksum; with
its checksum byte altered to `*59` both modes fail, while with the valid
checksum its unknown identifier XYZ parses to the sentinel unknown packet in
permissive mode. -/
theorem checksum_failure_mode_independent_witness :
    (parseOk (parseNmeaSentence "$IIXYZ,1,2*59") = false
      ∧ parseOk (parsePermissiveNmeaSentence "$IIXYZ,1,2*59") = false)
    ∧ parsePermissiveNmeaSentence "$IIXYZ,1,2*58"
        = Except.ok (ExtPacket.unknown ⟨"II", "XYZ"⟩ ["$IIXYZ", "1", "2"]) := by
  constructor
  · exact checksum_failure_mode_independent.1 "$IIXYZ,1,2*59" (by decide)
  · have h := (checksum_failure_mode_independent.2 "$IIXYZ,1,2*58"
      (by decide) (by decide) (by decide)).2.1
    rw [h]
    rfl
